import Mathlib

/-!
Verification of the Android boot-image header parsing library
(`src/bootimg.rs`) against its natural-language specification.

The Rust module defines byte-exact `repr(C, packed)` header records for
boot-image header versions 0-4 and vendor-boot header versions 3-4, a
packed `os_version` encoder, and two zero-copy parse functions
(`BootImg::parse_boot_image`, `VendorBootHdr::parse_vendor_boot_image`)
dispatching on a magic string and a version field.

Shallow embedding conventions:
- a byte buffer is a `List Nat` (each element one byte);
- `u8`/`u32` parameters and arithmetic are `Nat` with explicit `% 2^w`
  wrapping where Rust would wrap;
- `LayoutVerified::<B, T>::new_from_prefix(buffer)` over a packed record
  (alignment 1) succeeds exactly when `size_of::<T>() <= buffer.len()`
  and yields a view of the first `size_of::<T>()` bytes;
- Rust `Result<T, BootError>` becomes `Except BootError T`.
-/

/-- `BOOT_MAGIC_SIZE` from the source: Android magic boot string size. -/
def BOOT_MAGIC_SIZE : Nat := 8

/-- `BOOT_MAGIC` from the source: the bytes of `ANDROID!`. -/
def BOOT_MAGIC : List Nat := [0x41, 0x4E, 0x44, 0x52, 0x4F, 0x49, 0x44, 0x21]

/-- `BOOT_NAME_SIZE`: maximum product name size. -/
def BOOT_NAME_SIZE : Nat := 16

/-- `BOOT_ARGS_SIZE`: maximum size of kernel commandline. -/
def BOOT_ARGS_SIZE : Nat := 512

/-- `BOOT_EXTRA_ARGS_SIZE`: maximum size of supplemental commandline. -/
def BOOT_EXTRA_ARGS_SIZE : Nat := 1024

/-- `VENDOR_BOOT_MAGIC_SIZE` from the source: vendor magic boot string size. -/
def VENDOR_BOOT_MAGIC_SIZE : Nat := 8

/-- `VENDOR_BOOT_MAGIC` from the source: the bytes of `VNDRBOOT`. -/
def VENDOR_BOOT_MAGIC : List Nat := [0x56, 0x4E, 0x44, 0x52, 0x42, 0x4F, 0x4F, 0x54]

/-- `VENDOR_BOOT_ARGS_SIZE`: maximum size of vendor commandline. -/
def VENDOR_BOOT_ARGS_SIZE : Nat := 2048

/-- `VENDOR_BOOT_NAME_SIZE`: maximum size of vendor boot name. -/
def VENDOR_BOOT_NAME_SIZE : Nat := 16

/-- `BootError` from the source: boot related errors. -/
inductive BootError
  /-- The provided buffer was too small to hold a header. -/
  | BufferTooSmall
  /-- The magic string was incorrect. -/
  | BadMagic
  /-- The header version present is not supported. -/
  | UnknownVersion
  /-- Catch-all for remaining errors. -/
  | UnknownError
deriving DecidableEq, Repr

/-- `os_version` from the source.  The Rust signature is
`fn os_version(major: u8, minor: u8, patch: u8, year: u8, month: u8) -> u32`,
so each argument is truncated to a byte (`% 256`, modelling the `u8`
parameter type) before the `u32::from` promotion, and the subtraction
`u32::from(year) - 2000` is modelled with `u32` wraparound
(`(y + 2^32 - 2000) % 2^32`, Rust release semantics; a debug build
panics on the underflow instead). -/
def os_version (major minor patch year month : Nat) : Nat :=
  (((major % 256) &&& 0x7F) <<< 25) |||
  (((minor % 256) &&& 0x7F) <<< 18) |||
  (((patch % 256) &&& 0x7F) <<< 11) |||
  (((((year % 256) + 2 ^ 32) - 2000) % 2 ^ 32 &&& 0x7F) <<< 4) |||
  ((month % 256) &&& 0xF)

/-!
Byte layouts.  Each `repr(C, packed)` record is modelled as the list of
its fields in declaration order, each field paired with its byte width;
a record embedding a previous version as its first field (`v0_hdr`,
`v1_hdr`, `v3_hdr`, `v3_img_hdr`) is flattened by list append, which is
exactly the byte layout `repr(C, packed)` composition produces.
-/

/-- Byte width of every field of a layout, summed: `size_of::<T>()` for a
packed record. -/
def layoutSize (l : List (String × Nat)) : Nat :=
  (l.map (fun f => f.2)).sum

/-- Byte offset of the first field of a layout carrying the given name
(`none` when the layout has no such field). -/
def fieldOffset (l : List (String × Nat)) (nm : String) : Option Nat :=
  match l with
  | [] => none
  | (f, w) :: rest =>
    if f = nm then some 0 else (fieldOffset rest nm).map (fun o => o + w)

/-- Field layout of `BootImgHdrV0` (magic, nine `u32` fields, `os_version`,
name, cmdline, `id: [u32; 8]`, extra_cmdline). -/
def bootImgHdrV0Layout : List (String × Nat) :=
  [("magic", BOOT_MAGIC_SIZE),
   ("kernel_size", 4), ("kernel_addr", 4),
   ("ramdisk_size", 4), ("ramdisk_addr", 4),
   ("second_size", 4), ("second_addr", 4),
   ("tags_addr", 4), ("page_size", 4),
   ("header_version", 4), ("os_version", 4),
   ("name", BOOT_NAME_SIZE),
   ("cmdline", BOOT_ARGS_SIZE),
   ("id", 32),
   ("extra_cmdline", BOOT_EXTRA_ARGS_SIZE)]

/-- Field layout of `BootImgHdrV1`: the flattened `v0_hdr` field followed by
the v1 extension fields. -/
def bootImgHdrV1Layout : List (String × Nat) :=
  bootImgHdrV0Layout ++
  [("recovery_dtbo_size", 4), ("recovery_dtbo_offset", 8), ("header_size", 4)]

/-- Field layout of `BootImgHdrV2`: the flattened `v1_hdr` field followed by
the v2 extension fields. -/
def bootImgHdrV2Layout : List (String × Nat) :=
  bootImgHdrV1Layout ++ [("dtb_size", 4), ("dtb_addr", 8)]

/-- Field layout of `BootImgHdrV3` (a fresh layout, not an extension of v2;
`reserved: [u32; 4]` pads so that `header_version` starts at byte 40). -/
def bootImgHdrV3Layout : List (String × Nat) :=
  [("magic", BOOT_MAGIC_SIZE),
   ("kernel_size", 4), ("ramdisk_size", 4),
   ("os_version", 4), ("header_size", 4),
   ("reserved", 16),
   ("header_version", 4), ("page_size", 4),
   ("kernel_addr", 4), ("ramdisk_addr", 4),
   ("vendor_ramdisk_size", 4),
   ("cmdline", VENDOR_BOOT_ARGS_SIZE),
   ("tags_addr", 4),
   ("name", VENDOR_BOOT_NAME_SIZE),
   ("dtb_size", 4), ("dtb_addr", 8)]

/-- Field layout of `BootImgHdrV4`: the flattened `v3_hdr` field followed by
`signature_size`. -/
def bootImgHdrV4Layout : List (String × Nat) :=
  bootImgHdrV3Layout ++ [("signature_size", 4)]

/-- Field layout of `VendorBootHdrV3`. -/
def vendorBootHdrV3Layout : List (String × Nat) :=
  [("magic", VENDOR_BOOT_MAGIC_SIZE),
   ("header_version", 4), ("page_size", 4),
   ("kernel_addr", 4), ("ramdisk_addr", 4),
   ("vendor_ramdisk_size", 4),
   ("cmdline", VENDOR_BOOT_ARGS_SIZE),
   ("tags_addr", 4),
   ("name", VENDOR_BOOT_NAME_SIZE),
   ("header_size", 4),
   ("dtb_size", 4), ("dtb_addr", 8)]

/-- Field layout of `VendorBootHdrV4`: the flattened `v3_img_hdr` field
followed by the v4 extension fields. -/
def vendorBootHdrV4Layout : List (String × Nat) :=
  vendorBootHdrV3Layout ++
  [("vendor_ramdisk_table_size", 4), ("vendor_ramdisk_table_entry_num", 4),
   ("vendor_ramdisk_table_entry_size", 4), ("bootconfig_size", 4)]

/-- `size_of::<BootImgHdrV0>()`. -/
def size_of_BootImgHdrV0 : Nat := layoutSize bootImgHdrV0Layout

/-- `size_of::<BootImgHdrV1>()`. -/
def size_of_BootImgHdrV1 : Nat := layoutSize bootImgHdrV1Layout

/-- `size_of::<BootImgHdrV2>()`. -/
def size_of_BootImgHdrV2 : Nat := layoutSize bootImgHdrV2Layout

/-- `size_of::<BootImgHdrV3>()`. -/
def size_of_BootImgHdrV3 : Nat := layoutSize bootImgHdrV3Layout

/-- `size_of::<BootImgHdrV4>()`. -/
def size_of_BootImgHdrV4 : Nat := layoutSize bootImgHdrV4Layout

/-- `size_of::<VendorBootHdrV3>()`. -/
def size_of_VendorBootHdrV3 : Nat := layoutSize vendorBootHdrV3Layout

/-- `size_of::<VendorBootHdrV4>()`. -/
def size_of_VendorBootHdrV4 : Nat := layoutSize vendorBootHdrV4Layout

/-!
Record structures and their `Default` impls.  Integer fields are `Nat`
(every default value fits its machine width); byte/word arrays are
`List Nat`.  Field names and the composition through `v0_hdr`/`v1_hdr`/
`v3_hdr`/`v3_img_hdr` fields mirror the Rust structs exactly.
-/

/-- `BootImgHdrV0` from the source: the version-0 boot image header. -/
structure BootImgHdrV0 where
  magic : List Nat
  kernel_size : Nat
  kernel_addr : Nat
  ramdisk_size : Nat
  ramdisk_addr : Nat
  second_size : Nat
  second_addr : Nat
  tags_addr : Nat
  page_size : Nat
  header_version : Nat
  os_version : Nat
  name : List Nat
  cmdline : List Nat
  id : List Nat
  extra_cmdline : List Nat

/-- `impl Default for BootImgHdrV0`. -/
def BootImgHdrV0.default : BootImgHdrV0 where
  magic := BOOT_MAGIC
  kernel_size := 0
  kernel_addr := 0
  ramdisk_size := 0
  ramdisk_addr := 0
  second_size := 0
  second_addr := 0
  tags_addr := 0
  page_size := 0
  header_version := 0
  os_version := 0
  name := List.replicate BOOT_NAME_SIZE 0
  cmdline := List.replicate BOOT_ARGS_SIZE 0
  id := List.replicate 8 0
  extra_cmdline := List.replicate BOOT_EXTRA_ARGS_SIZE 0

/-- `BootImgHdrV1` from the source: a `BootImgHdrV0` followed by the
version-1 extension fields. -/
structure BootImgHdrV1 where
  v0_hdr : BootImgHdrV0
  recovery_dtbo_size : Nat
  recovery_dtbo_offset : Nat
  header_size : Nat

/-- `impl Default for BootImgHdrV1`: `header_size = size_of::<Self>()`. -/
def BootImgHdrV1.default : BootImgHdrV1 where
  v0_hdr := { BootImgHdrV0.default with header_version := 1 }
  recovery_dtbo_size := 0
  recovery_dtbo_offset := 0
  header_size := size_of_BootImgHdrV1

/-- `BootImgHdrV2` from the source: a `BootImgHdrV1` followed by the
version-2 extension fields. -/
structure BootImgHdrV2 where
  v1_hdr : BootImgHdrV1
  dtb_size : Nat
  dtb_addr : Nat

/-- `impl Default for BootImgHdrV2`: the `v1_hdr` field is
`BootImgHdrV1 { v0_hdr: BootImgHdrV0 { header_version: 2, ..default }, ..default }`,
so its `header_size` comes from `BootImgHdrV1::default()`. -/
def BootImgHdrV2.default : BootImgHdrV2 where
  v1_hdr := { BootImgHdrV1.default with
              v0_hdr := { BootImgHdrV0.default with header_version := 2 } }
  dtb_size := 0
  dtb_addr := 0

/-- `BootImgHdrV3` from the source: the fresh version-3 layout. -/
structure BootImgHdrV3 where
  magic : List Nat
  kernel_size : Nat
  ramdisk_size : Nat
  os_version : Nat
  header_size : Nat
  reserved : List Nat
  header_version : Nat
  page_size : Nat
  kernel_addr : Nat
  ramdisk_addr : Nat
  vendor_ramdisk_size : Nat
  cmdline : List Nat
  tags_addr : Nat
  name : List Nat
  dtb_size : Nat
  dtb_addr : Nat

/-- `impl Default for BootImgHdrV3`: `header_size = size_of::<Self>()`,
`header_version = 3`, `page_size = 4096`. -/
def BootImgHdrV3.default : BootImgHdrV3 where
  magic := BOOT_MAGIC
  kernel_size := 0
  ramdisk_size := 0
  os_version := 0
  header_size := size_of_BootImgHdrV3
  reserved := List.replicate 4 0
  header_version := 3
  page_size := 4096
  kernel_addr := 0
  ramdisk_addr := 0
  vendor_ramdisk_size := 0
  cmdline := List.replicate VENDOR_BOOT_ARGS_SIZE 0
  tags_addr := 0
  name := List.replicate VENDOR_BOOT_NAME_SIZE 0
  dtb_size := 0
  dtb_addr := 0

/-- `BootImgHdrV4` from the source: a `BootImgHdrV3` followed by
`signature_size`. -/
structure BootImgHdrV4 where
  v3_hdr : BootImgHdrV3
  signature_size : Nat

/-- `impl Default for BootImgHdrV4`: the `v3_hdr` field is
`BootImgHdrV3 { header_version: 4, ..default }`, so its `header_size`
comes from `BootImgHdrV3::default()`. -/
def BootImgHdrV4.default : BootImgHdrV4 where
  v3_hdr := { BootImgHdrV3.default with header_version := 4 }
  signature_size := 0

/-- `VendorBootHdrV3` from the source. -/
structure VendorBootHdrV3 where
  magic : List Nat
  header_version : Nat
  page_size : Nat
  kernel_addr : Nat
  ramdisk_addr : Nat
  vendor_ramdisk_size : Nat
  cmdline : List Nat
  tags_addr : Nat
  name : List Nat
  header_size : Nat
  dtb_size : Nat
  dtb_addr : Nat

/-- `impl Default for VendorBootHdrV3`: `header_size = size_of::<Self>()`,
`header_version = 3`. -/
def VendorBootHdrV3.default : VendorBootHdrV3 where
  magic := VENDOR_BOOT_MAGIC
  header_version := 3
  page_size := 0
  kernel_addr := 0
  ramdisk_addr := 0
  vendor_ramdisk_size := 0
  cmdline := List.replicate VENDOR_BOOT_ARGS_SIZE 0
  tags_addr := 0
  name := List.replicate VENDOR_BOOT_NAME_SIZE 0
  header_size := size_of_VendorBootHdrV3
  dtb_size := 0
  dtb_addr := 0

/-- `VendorBootHdrV4` from the source: a `VendorBootHdrV3` followed by the
version-4 extension fields. -/
structure VendorBootHdrV4 where
  v3_img_hdr : VendorBootHdrV3
  vendor_ramdisk_table_size : Nat
  vendor_ramdisk_table_entry_num : Nat
  vendor_ramdisk_table_entry_size : Nat
  bootconfig_size : Nat

/-- `impl Default for VendorBootHdrV4`: the `v3_img_hdr` field is
`VendorBootHdrV3 { header_version: 4, ..default }`, so its `header_size`
comes from `VendorBootHdrV3::default()`. -/
def VendorBootHdrV4.default : VendorBootHdrV4 where
  v3_img_hdr := { VendorBootHdrV3.default with header_version := 4 }
  vendor_ramdisk_table_size := 0
  vendor_ramdisk_table_entry_num := 0
  vendor_ramdisk_table_entry_size := 0
  bootconfig_size := 0


/-- `BootImg` from the source: a version-tagged zero-copy view over the
first `size_of::<T>()` bytes of the parsed buffer.  The payload list is
the byte content the `LayoutVerified` view references. -/
inductive BootImg
  /-- Version 0 header -/
  | V0Hdr (bytes : List Nat)
  /-- Version 1 header -/
  | V1Hdr (bytes : List Nat)
  /-- Version 2 header -/
  | V2Hdr (bytes : List Nat)
  /-- Version 3 header -/
  | V3Hdr (bytes : List Nat)
  /-- Version 4 header -/
  | V4Hdr (bytes : List Nat)
deriving DecidableEq, Repr

/-- The bytes referenced by a `BootImg` view. -/
def BootImg.viewBytes : BootImg → List Nat
  | .V0Hdr bytes => bytes
  | .V1Hdr bytes => bytes
  | .V2Hdr bytes => bytes
  | .V3Hdr bytes => bytes
  | .V4Hdr bytes => bytes

/-- `VendorBootHdr` from the source: the vendor-boot tagged view. -/
inductive VendorBootHdr
  /-- Version 3 header -/
  | V3Hdr (bytes : List Nat)
  /-- Version 4 header -/
  | V4Hdr (bytes : List Nat)
deriving DecidableEq, Repr

/-- The bytes referenced by a `VendorBootHdr` view. -/
def VendorBootHdr.viewBytes : VendorBootHdr → List Nat
  | .V3Hdr bytes => bytes
  | .V4Hdr bytes => bytes

/-- `u32::from_le_bytes` applied to the four buffer bytes starting at
`off` (the source slices `buffer[off..off+4]`; the callers only read
after checking `off + 4 <= buffer.len()`, so the `getD` default is never
hit under those checks). -/
def readLE32 (buffer : List Nat) (off : Nat) : Nat :=
  buffer.getD off 0 |||
  (buffer.getD (off + 1) 0 <<< 8) |||
  (buffer.getD (off + 2) 0 <<< 16) |||
  (buffer.getD (off + 3) 0 <<< 24)

/-- `BootImg::parse_boot_image` from the source:
1. fail with `BufferTooSmall` when the buffer is shorter than 44 bytes
   (the version field is the `u32` at bytes 40..44);
2. read the version (the `try_into` on a 4-byte slice cannot fail here);
3. fail with `BadMagic` when the first 8 bytes are not `ANDROID!`;
4. dispatch on versions 0-4: `LayoutVerified::new_from_prefix` succeeds
   exactly when the buffer holds at least `size_of` of the record type,
   viewing that prefix, and otherwise fails with `BufferTooSmall`;
5. any other version fails with `UnknownVersion`. -/
def BootImg.parse_boot_image (buffer : List Nat) : Except BootError BootImg :=
  if buffer.length < 44 then .error .BufferTooSmall
  else
    let version := readLE32 buffer 40
    if buffer.take BOOT_MAGIC_SIZE ≠ BOOT_MAGIC then .error .BadMagic
    else if version = 0 then
      if size_of_BootImgHdrV0 ≤ buffer.length then
        .ok (.V0Hdr (buffer.take size_of_BootImgHdrV0))
      else .error .BufferTooSmall
    else if version = 1 then
      if size_of_BootImgHdrV1 ≤ buffer.length then
        .ok (.V1Hdr (buffer.take size_of_BootImgHdrV1))
      else .error .BufferTooSmall
    else if version = 2 then
      if size_of_BootImgHdrV2 ≤ buffer.length then
        .ok (.V2Hdr (buffer.take size_of_BootImgHdrV2))
      else .error .BufferTooSmall
    else if version = 3 then
      if size_of_BootImgHdrV3 ≤ buffer.length then
        .ok (.V3Hdr (buffer.take size_of_BootImgHdrV3))
      else .error .BufferTooSmall
    else if version = 4 then
      if size_of_BootImgHdrV4 ≤ buffer.length then
        .ok (.V4Hdr (buffer.take size_of_BootImgHdrV4))
      else .error .BufferTooSmall
    else .error .UnknownVersion

/-- `VendorBootHdr::parse_vendor_boot_image` from the source:
`version_end_offset = VENDOR_BOOT_MAGIC_SIZE + size_of::<u32>() = 12`;
the magic is checked before the version is read, and the version space
is `{3, 4}`. -/
def VendorBootHdr.parse_vendor_boot_image (buffer : List Nat) :
    Except BootError VendorBootHdr :=
  if buffer.length < VENDOR_BOOT_MAGIC_SIZE + 4 then .error .BufferTooSmall
  else if buffer.take VENDOR_BOOT_MAGIC_SIZE ≠ VENDOR_BOOT_MAGIC then
    .error .BadMagic
  else
    let version := readLE32 buffer VENDOR_BOOT_MAGIC_SIZE
    if version = 3 then
      if size_of_VendorBootHdrV3 ≤ buffer.length then
        .ok (.V3Hdr (buffer.take size_of_VendorBootHdrV3))
      else .error .BufferTooSmall
    else if version = 4 then
      if size_of_VendorBootHdrV4 ≤ buffer.length then
        .ok (.V4Hdr (buffer.take size_of_VendorBootHdrV4))
      else .error .BufferTooSmall
    else .error .UnknownVersion

/-- The full record size a boot header of version `v ∈ {0,..,4}` requires. -/
def bootHdrSize (v : Nat) : Nat :=
  if v = 0 then size_of_BootImgHdrV0
  else if v = 1 then size_of_BootImgHdrV1
  else if v = 2 then size_of_BootImgHdrV2
  else if v = 3 then size_of_BootImgHdrV3
  else if v = 4 then size_of_BootImgHdrV4
  else 0

/-- The `BootImg` variant a successful parse of version `v ∈ {0,..,4}`
wraps around the view's bytes. -/
def bootImgOfVersion (v : Nat) (bytes : List Nat) : BootImg :=
  if v = 0 then .V0Hdr bytes
  else if v = 1 then .V1Hdr bytes
  else if v = 2 then .V2Hdr bytes
  else if v = 3 then .V3Hdr bytes
  else .V4Hdr bytes

/-- The buffer indices `parse_boot_image` reads, mirroring the source
step by step: nothing when the length check fails; the version slice
`[40..44)` and the magic slice `[0..8)` otherwise; and, when the magic
matches and the dispatched view construction succeeds, the
`size_of::<T>()` bytes the returned view references. -/
def bootAccessedIndices (buffer : List Nat) : List Nat :=
  if buffer.length < 44 then []
  else
    let version := readLE32 buffer 40
    let fixedReads := [40, 41, 42, 43] ++ List.range BOOT_MAGIC_SIZE
    if buffer.take BOOT_MAGIC_SIZE ≠ BOOT_MAGIC then fixedReads
    else if version = 0 then
      fixedReads ++ (if size_of_BootImgHdrV0 ≤ buffer.length then
        List.range size_of_BootImgHdrV0 else [])
    else if version = 1 then
      fixedReads ++ (if size_of_BootImgHdrV1 ≤ buffer.length then
        List.range size_of_BootImgHdrV1 else [])
    else if version = 2 then
      fixedReads ++ (if size_of_BootImgHdrV2 ≤ buffer.length then
        List.range size_of_BootImgHdrV2 else [])
    else if version = 3 then
      fixedReads ++ (if size_of_BootImgHdrV3 ≤ buffer.length then
        List.range size_of_BootImgHdrV3 else [])
    else if version = 4 then
      fixedReads ++ (if size_of_BootImgHdrV4 ≤ buffer.length then
        List.range size_of_BootImgHdrV4 else [])
    else fixedReads

/-- The buffer indices `parse_vendor_boot_image` reads, mirroring the
source: nothing when the length check fails; the magic slice `[0..8)`;
then the version slice `[8..12)`; then the view's bytes on success. -/
def vendorAccessedIndices (buffer : List Nat) : List Nat :=
  if buffer.length < VENDOR_BOOT_MAGIC_SIZE + 4 then []
  else if buffer.take VENDOR_BOOT_MAGIC_SIZE ≠ VENDOR_BOOT_MAGIC then
    List.range VENDOR_BOOT_MAGIC_SIZE
  else
    let version := readLE32 buffer VENDOR_BOOT_MAGIC_SIZE
    let fixedReads := List.range VENDOR_BOOT_MAGIC_SIZE ++ [8, 9, 10, 11]
    if version = 3 then
      fixedReads ++ (if size_of_VendorBootHdrV3 ≤ buffer.length then
        List.range size_of_VendorBootHdrV3 else [])
    else if version = 4 then
      fixedReads ++ (if size_of_VendorBootHdrV4 ≤ buffer.length then
        List.range size_of_VendorBootHdrV4 else [])
    else fixedReads

/-- An all-zero boot buffer of length `len ≥ 44` carrying the boot magic
and `version` (< 256) little-endian at bytes 40..44. -/
def zeroBootBuffer (version len : Nat) : List Nat :=
  BOOT_MAGIC ++ List.replicate 32 0 ++ [version, 0, 0, 0] ++
  List.replicate (len - 44) 0

/-- An all-zero vendor-boot buffer of length `len ≥ 12` carrying the
vendor magic and `version` (< 256) little-endian at bytes 8..12. -/
def zeroVendorBuffer (version len : Nat) : List Nat :=
  VENDOR_BOOT_MAGIC ++ [version, 0, 0, 0] ++ List.replicate (len - 12) 0
deriving instance DecidableEq for Except

/-- Evaluation helper: length of a `zeroBootBuffer`. -/
theorem zeroBootBuffer_length (v len : Nat) (h : 44 ≤ len) :
    (zeroBootBuffer v len).length = len := by
  simp [zeroBootBuffer, BOOT_MAGIC]
  omega

/-- Evaluation helper: a `zeroBootBuffer` starts with the boot magic. -/
theorem zeroBootBuffer_take_magic (v len : Nat) :
    (zeroBootBuffer v len).take BOOT_MAGIC_SIZE = BOOT_MAGIC := rfl

/-- Evaluation helper: reassociation exposing bytes 40..44 of a `zeroBootBuffer`. -/
theorem zeroBootBuffer_reassoc (v len : Nat) :
    zeroBootBuffer v len =
      (BOOT_MAGIC ++ List.replicate 32 0) ++
        ((v :: [0, 0, 0]) ++ List.replicate (len - 44) 0) := by
  simp [zeroBootBuffer]

/-- Evaluation helper: the version field of a `zeroBootBuffer` decodes to `v`. -/
theorem readLE32_zeroBootBuffer (v len : Nat) :
    readLE32 (zeroBootBuffer v len) 40 = v := by
  have hlen : (BOOT_MAGIC ++ List.replicate 32 0).length = 40 := by
    simp [BOOT_MAGIC]
  have h40 : (zeroBootBuffer v len).getD 40 0 = v := by
    rw [zeroBootBuffer_reassoc, List.getD_append_right _ _ _ _ (by omega), hlen]
    simp
  have h41 : (zeroBootBuffer v len).getD 41 0 = 0 := by
    rw [zeroBootBuffer_reassoc, List.getD_append_right _ _ _ _ (by omega), hlen]
    simp
  have h42 : (zeroBootBuffer v len).getD 42 0 = 0 := by
    rw [zeroBootBuffer_reassoc, List.getD_append_right _ _ _ _ (by omega), hlen]
    simp
  have h43 : (zeroBootBuffer v len).getD 43 0 = 0 := by
    rw [zeroBootBuffer_reassoc, List.getD_append_right _ _ _ _ (by omega), hlen]
    simp
  unfold readLE32
  rw [h40, h41, h42, h43]
  simp

/-- Evaluation helper: length of a `zeroVendorBuffer`. -/
theorem zeroVendorBuffer_length (v len : Nat) (h : 12 ≤ len) :
    (zeroVendorBuffer v len).length = len := by
  simp [zeroVendorBuffer, VENDOR_BOOT_MAGIC]
  omega

/-- Evaluation helper: a `zeroVendorBuffer` starts with the vendor magic. -/
theorem zeroVendorBuffer_take_magic (v len : Nat) :
    (zeroVendorBuffer v len).take VENDOR_BOOT_MAGIC_SIZE = VENDOR_BOOT_MAGIC := rfl

/-- Evaluation helper: reassociation exposing bytes 8..12 of a `zeroVendorBuffer`. -/
theorem zeroVendorBuffer_reassoc (v len : Nat) :
    zeroVendorBuffer v len =
      VENDOR_BOOT_MAGIC ++ ((v :: [0, 0, 0]) ++ List.replicate (len - 12) 0) := by
  simp [zeroVendorBuffer]

/-- Evaluation helper: the version field of a `zeroVendorBuffer` decodes to `v`. -/
theorem readLE32_zeroVendorBuffer (v len : Nat) :
    readLE32 (zeroVendorBuffer v len) VENDOR_BOOT_MAGIC_SIZE = v := by
  have hlen : (VENDOR_BOOT_MAGIC : List Nat).length = 8 := by simp [VENDOR_BOOT_MAGIC]
  have h8 : (zeroVendorBuffer v len).getD 8 0 = v := by
    rw [zeroVendorBuffer_reassoc, List.getD_append_right _ _ _ _ (by omega), hlen]
    simp
  have h9 : (zeroVendorBuffer v len).getD 9 0 = 0 := by
    rw [zeroVendorBuffer_reassoc, List.getD_append_right _ _ _ _ (by omega), hlen]
    simp
  have h10 : (zeroVendorBuffer v len).getD 10 0 = 0 := by
    rw [zeroVendorBuffer_reassoc, List.getD_append_right _ _ _ _ (by omega), hlen]
    simp
  have h11 : (zeroVendorBuffer v len).getD 11 0 = 0 := by
    rw [zeroVendorBuffer_reassoc, List.getD_append_right _ _ _ _ (by omega), hlen]
    simp
  show readLE32 (zeroVendorBuffer v len) 8 = v
  unfold readLE32
  rw [h8, h9, h10, h11]
  simp

/-- Every supported boot header record is at least 44 bytes. -/
theorem bootHdrSize_ge (v : Nat) (hv : v ≤ 4) : 44 ≤ bootHdrSize v := by
  interval_cases v <;> decide

/-- Characterization of the successful dispatch arm of `parse_boot_image`:
a buffer with the boot magic, a supported version `v`, and at least the
full record size yields the `v`-tagged view of the record-size byte span. -/
theorem parse_boot_ok_helper (buffer : List Nat) (v : Nat) (hv : v ≤ 4)
    (hlen : bootHdrSize v ≤ buffer.length)
    (hmagic : buffer.take BOOT_MAGIC_SIZE = BOOT_MAGIC)
    (hver : readLE32 buffer 40 = v) :
    BootImg.parse_boot_image buffer =
      .ok (bootImgOfVersion v (buffer.take (bootHdrSize v))) := by
  have h44 : 44 ≤ buffer.length := le_trans (bootHdrSize_ge v hv) hlen
  unfold BootImg.parse_boot_image
  rw [if_neg (by omega)]
  simp only [hver]
  rw [if_neg (by simp [hmagic])]
  interval_cases v <;>
    simp_all [bootHdrSize, bootImgOfVersion]


/-- Numeric value of `size_of::<BootImgHdrV0>()`. -/
theorem size_of_BootImgHdrV0_eq : size_of_BootImgHdrV0 = 1632 := by decide

/-- Numeric value of `size_of::<BootImgHdrV1>()`. -/
theorem size_of_BootImgHdrV1_eq : size_of_BootImgHdrV1 = 1648 := by decide

/-- Numeric value of `size_of::<BootImgHdrV2>()`. -/
theorem size_of_BootImgHdrV2_eq : size_of_BootImgHdrV2 = 1660 := by decide

/-- Numeric value of `size_of::<BootImgHdrV3>()`. -/
theorem size_of_BootImgHdrV3_eq : size_of_BootImgHdrV3 = 2140 := by decide

/-- Numeric value of `size_of::<BootImgHdrV4>()`. -/
theorem size_of_BootImgHdrV4_eq : size_of_BootImgHdrV4 = 2144 := by decide

/-- Numeric value of `size_of::<VendorBootHdrV3>()`. -/
theorem size_of_VendorBootHdrV3_eq : size_of_VendorBootHdrV3 = 2112 := by decide

/-- Numeric value of `size_of::<VendorBootHdrV4>()`. -/
theorem size_of_VendorBootHdrV4_eq : size_of_VendorBootHdrV4 = 2128 := by decide

/-- The view built by `bootImgOfVersion` references exactly the given bytes. -/
theorem viewBytes_bootImgOfVersion (v : Nat) (b : List Nat) :
    (bootImgOfVersion v b).viewBytes = b := by
  unfold bootImgOfVersion
  split_ifs <;> rfl

/-- Characterization of the failing dispatch arm of `parse_boot_image`:
a magic-carrying buffer claiming a supported version but shorter than that
record size fails with `BufferTooSmall`. -/
theorem parse_boot_toosmall_helper (buffer : List Nat) (v : Nat) (hv : v ≤ 4)
    (h44 : 44 ≤ buffer.length) (hlt : buffer.length < bootHdrSize v)
    (hmagic : buffer.take BOOT_MAGIC_SIZE = BOOT_MAGIC)
    (hver : readLE32 buffer 40 = v) :
    BootImg.parse_boot_image buffer = .error .BufferTooSmall := by
  unfold BootImg.parse_boot_image
  rw [if_neg (by omega)]
  simp only [hver]
  rw [if_neg (by simp [hmagic])]
  interval_cases v <;> simp_all [bootHdrSize]

/-- Characterization of the fallthrough arm of `parse_boot_image`: a
magic-carrying buffer with a version above 4 fails with `UnknownVersion`. -/
theorem parse_boot_unknown_helper (buffer : List Nat)
    (h44 : 44 ≤ buffer.length)
    (hmagic : buffer.take BOOT_MAGIC_SIZE = BOOT_MAGIC)
    (hver : 4 < readLE32 buffer 40) :
    BootImg.parse_boot_image buffer = .error .UnknownVersion := by
  unfold BootImg.parse_boot_image
  rw [if_neg (by omega)]
  simp only []
  rw [if_neg (by simp [hmagic]), if_neg (by omega), if_neg (by omega),
     if_neg (by omega), if_neg (by omega), if_neg (by omega)]

/-- Characterization of the fallthrough arm of `parse_vendor_boot_image`:
a version other than 3 or 4 fails with `UnknownVersion`. -/
theorem parse_vendor_unknown_helper (buffer : List Nat)
    (h12 : VENDOR_BOOT_MAGIC_SIZE + 4 ≤ buffer.length)
    (hmagic : buffer.take VENDOR_BOOT_MAGIC_SIZE = VENDOR_BOOT_MAGIC)
    (h3 : readLE32 buffer VENDOR_BOOT_MAGIC_SIZE ≠ 3)
    (h4 : readLE32 buffer VENDOR_BOOT_MAGIC_SIZE ≠ 4) :
    VendorBootHdr.parse_vendor_boot_image buffer = .error .UnknownVersion := by
  unfold VendorBootHdr.parse_vendor_boot_image
  rw [if_neg (by omega)]
  rw [if_neg (by simp [hmagic])]
  simp only []
  rw [if_neg h3, if_neg h4]

/-- Truncating a long `zeroBootBuffer` yields the shorter `zeroBootBuffer`
with the same version field. -/
theorem zeroBootBuffer_take (v a b : Nat) (h44 : 44 ≤ a) (hab : a ≤ b) :
    (zeroBootBuffer v b).take a = zeroBootBuffer v a := by
  have harith : b - 44 = (a - 44) + (b - a) := by omega
  have key : zeroBootBuffer v b =
      zeroBootBuffer v a ++ List.replicate (b - a) 0 := by
    unfold zeroBootBuffer
    rw [harith, List.replicate_add]
    simp [List.append_assoc]
  rw [key, List.take_left' (zeroBootBuffer_length v a h44)]





/-- Claim C1, counterexample.  The claim asserts that a `1632+12`-byte
(= 1644-byte) buffer with magic `ANDROID!`, version 2 at bytes 40..44 and
all other bytes zero parses as the version-2 view.  On the code it does
not: `size_of::<BootImgHdrV2>() = 1660`, so `parse_boot_image` returns
`Err(BufferTooSmall)` on that very buffer even though its magic and
version hypotheses hold. -/
theorem C1_claimed_length_counterexample :
    (zeroBootBuffer 2 1644).length = 1632 + 12 ∧
    (zeroBootBuffer 2 1644).take BOOT_MAGIC_SIZE = BOOT_MAGIC ∧
    readLE32 (zeroBootBuffer 2 1644) 40 = 2 ∧
    BootImg.parse_boot_image (zeroBootBuffer 2 1644) = .error .BufferTooSmall := by
  refine ⟨zeroBootBuffer_length 2 1644 (by norm_num),
    zeroBootBuffer_take_magic 2 1644, readLE32_zeroBootBuffer 2 1644, ?_⟩
  refine parse_boot_toosmall_helper (zeroBootBuffer 2 1644) 2 (by norm_num) ?_ ?_
    (zeroBootBuffer_take_magic 2 1644) (readLE32_zeroBootBuffer 2 1644)
  · rw [zeroBootBuffer_length 2 1644 (by norm_num)]; norm_num
  · rw [zeroBootBuffer_length 2 1644 (by norm_num), bootHdrSize,
      size_of_BootImgHdrV2_eq]
    norm_num

/-- Claim C1, amended.  A `1648+12`-byte (= `size_of::<BootImgHdrV2>()`
= 1660-byte) buffer with magic `ANDROID!`, version 2 at bytes 40..44 and
all other bytes zero parses as the version-2 tagged view of the whole
buffer; the same content truncated to 1632 bytes (the v0 record size),
version field still 2, yields `Err(BufferTooSmall)`. -/
theorem C1_v2_scenario :
    (zeroBootBuffer 2 1660).length = 1648 + 12 ∧
    BootImg.parse_boot_image (zeroBootBuffer 2 1660) =
      .ok (.V2Hdr (zeroBootBuffer 2 1660)) ∧
    (zeroBootBuffer 2 1660).take 1632 = zeroBootBuffer 2 1632 ∧
    BootImg.parse_boot_image (zeroBootBuffer 2 1632) = .error .BufferTooSmall := by
  have hlen60 := zeroBootBuffer_length 2 1660 (by norm_num)
  have hlen32 := zeroBootBuffer_length 2 1632 (by norm_num)
  refine ⟨by rw [hlen60], ?_, zeroBootBuffer_take 2 1632 1660 (by norm_num) (by norm_num), ?_⟩
  · have h := parse_boot_ok_helper (zeroBootBuffer 2 1660) 2 (by norm_num)
      (by rw [hlen60, bootHdrSize, size_of_BootImgHdrV2_eq]; norm_num)
      (zeroBootBuffer_take_magic 2 1660) (readLE32_zeroBootBuffer 2 1660)
    rw [h]
    have htake : (zeroBootBuffer 2 1660).take (bootHdrSize 2) = zeroBootBuffer 2 1660 :=
      List.take_of_length_le (by rw [hlen60]; decide)
    rw [htake]
    rfl
  · refine parse_boot_toosmall_helper (zeroBootBuffer 2 1632) 2 (by norm_num) ?_ ?_
      (zeroBootBuffer_take_magic 2 1632) (readLE32_zeroBootBuffer 2 1632)
    · rw [hlen32]; norm_num
    · rw [hlen32, bootHdrSize, size_of_BootImgHdrV2_eq]; norm_num


/-- Claim C2, counterexample.  The claim asserts
`BootImgHdrV2::default().v1_hdr.header_size == size_of::<BootImgHdrV2>()`
(and likewise for V4 and VendorV4).  On the code the V2 default builds
its `v1_hdr` with `..Default::default()`, so the field holds
`size_of::<BootImgHdrV1>() = 1648`, not `size_of::<BootImgHdrV2>() = 1660`;
the V4 and vendor-V4 defaults inherit the V3 / vendor-V3 sizes the same way. -/
theorem C2_v2_default_counterexample :
    BootImgHdrV2.default.v1_hdr.header_size = size_of_BootImgHdrV1 ∧
    size_of_BootImgHdrV1 = 1648 ∧ size_of_BootImgHdrV2 = 1660 ∧
    BootImgHdrV2.default.v1_hdr.header_size ≠ size_of_BootImgHdrV2 ∧
    BootImgHdrV4.default.v3_hdr.header_size ≠ size_of_BootImgHdrV4 ∧
    VendorBootHdrV4.default.v3_img_hdr.header_size ≠ size_of_VendorBootHdrV4 := by
  refine ⟨rfl, by decide, by decide, by decide, by decide, by decide⟩

/-- Claim C2, amended.  Every default constructor sets the family magic
and the record's version number; `header_size` is set to the byte size of
the record type whose `Default` impl assigns it: `BootImgHdrV1` (1648),
`BootImgHdrV3` (2140) and `VendorBootHdrV3` (2112) store their own sizes,
while the V2, V4 and vendor-V4 defaults inherit those prefix values
(`BootImgHdrV2::default().v1_hdr.header_size = size_of::<BootImgHdrV1>()`,
`BootImgHdrV4::default().v3_hdr.header_size = size_of::<BootImgHdrV3>()`,
`VendorBootHdrV4::default().v3_img_hdr.header_size = size_of::<VendorBootHdrV3>()`). -/
theorem C2_default_magic_version_header_size :
    BootImgHdrV0.default.magic = BOOT_MAGIC ∧
    BootImgHdrV0.default.header_version = 0 ∧
    BootImgHdrV1.default.v0_hdr.magic = BOOT_MAGIC ∧
    BootImgHdrV1.default.v0_hdr.header_version = 1 ∧
    BootImgHdrV1.default.header_size = size_of_BootImgHdrV1 ∧
    BootImgHdrV2.default.v1_hdr.v0_hdr.magic = BOOT_MAGIC ∧
    BootImgHdrV2.default.v1_hdr.v0_hdr.header_version = 2 ∧
    BootImgHdrV2.default.v1_hdr.header_size = size_of_BootImgHdrV1 ∧
    BootImgHdrV3.default.magic = BOOT_MAGIC ∧
    BootImgHdrV3.default.header_version = 3 ∧
    BootImgHdrV3.default.header_size = size_of_BootImgHdrV3 ∧
    BootImgHdrV4.default.v3_hdr.magic = BOOT_MAGIC ∧
    BootImgHdrV4.default.v3_hdr.header_version = 4 ∧
    BootImgHdrV4.default.v3_hdr.header_size = size_of_BootImgHdrV3 ∧
    VendorBootHdrV3.default.magic = VENDOR_BOOT_MAGIC ∧
    VendorBootHdrV3.default.header_version = 3 ∧
    VendorBootHdrV3.default.header_size = size_of_VendorBootHdrV3 ∧
    VendorBootHdrV4.default.v3_img_hdr.magic = VENDOR_BOOT_MAGIC ∧
    VendorBootHdrV4.default.v3_img_hdr.header_version = 4 ∧
    VendorBootHdrV4.default.v3_img_hdr.header_size = size_of_VendorBootHdrV3 := by
  repeat' constructor

/-- Claim C3, evaluation at the claimed input.  Under the release
(wrapping) embedding of `os_version` — the `u8` year parameter truncates
2024 to 232, and `u32::from(year) - 2000` wraps — the packed word equals
the claimed pattern `(7<<25)|(1<<18)|(2<<11)|(24<<4)|3`.  The Rust code
itself cannot be called with year 2024 (`Year = u8`), and the
subtraction underflows for every representable year, so this equation
documents the wrap-around behaviour at the claim's input, not a legal
call of the source function. -/
theorem C3_os_version_at_claimed_input :
    os_version 7 1 2 2024 3 =
      (7 <<< 25) ||| (1 <<< 18) ||| (2 <<< 11) ||| (24 <<< 4) ||| 3 ∧
    (2024 : Nat) % 256 = 232 ∧
    os_version 7 1 2 232 3 = os_version 7 1 2 2024 3 := by
  refine ⟨by decide, by decide, by decide⟩

/-- Claim C9, counterexample.  The claim asserts every version-N record
contains its version-(N-1) predecessor's byte layout as a prefix; at
N = 3 this fails: `BootImgHdrV3` is a fresh layout whose third field is
`ramdisk_size`, whereas `BootImgHdrV2` (via the embedded v0 header) has
`kernel_addr` there, so the v2 layout is not a prefix of the v3 layout. -/
theorem C9_v3_extension_counterexample :
    bootImgHdrV3Layout.take bootImgHdrV2Layout.length ≠ bootImgHdrV2Layout ∧
    bootImgHdrV2Layout[2]? = some ("kernel_addr", 4) ∧
    bootImgHdrV3Layout[2]? = some ("ramdisk_size", 4) := by
  refine ⟨by decide, by decide, by decide⟩

/-- Claim C9, amended.  `header_version` sits at byte offset 40 in all
five boot-header layouts and at byte offset 8 in both vendor layouts;
the prefix-extension relation holds exactly for boot V1 over V0, V2 over
V1, V4 over V3 and vendor V4 over V3 (boot V3 starts a fresh layout, not
an extension of V2), with no padding: the v1 record size is the v0 size
plus 16. -/
theorem C9_layout_offsets :
    fieldOffset bootImgHdrV0Layout "header_version" = some 40 ∧
    fieldOffset bootImgHdrV1Layout "header_version" = some 40 ∧
    fieldOffset bootImgHdrV2Layout "header_version" = some 40 ∧
    fieldOffset bootImgHdrV3Layout "header_version" = some 40 ∧
    fieldOffset bootImgHdrV4Layout "header_version" = some 40 ∧
    fieldOffset vendorBootHdrV3Layout "header_version" = some 8 ∧
    fieldOffset vendorBootHdrV4Layout "header_version" = some 8 ∧
    bootImgHdrV1Layout.take bootImgHdrV0Layout.length = bootImgHdrV0Layout ∧
    bootImgHdrV2Layout.take bootImgHdrV1Layout.length = bootImgHdrV1Layout ∧
    bootImgHdrV4Layout.take bootImgHdrV3Layout.length = bootImgHdrV3Layout ∧
    vendorBootHdrV4Layout.take vendorBootHdrV3Layout.length = vendorBootHdrV3Layout ∧
    size_of_BootImgHdrV1 = size_of_BootImgHdrV0 + 16 ∧
    bootImgHdrV3Layout.take bootImgHdrV2Layout.length ≠ bootImgHdrV2Layout := by
  repeat' constructor
  all_goals decide


/-- Claim C4.  For each boot-header version `v ∈ {0,..,4}`, parsing a
buffer of exactly that version's record size whose first 8 bytes are
`ANDROID!` and whose bytes 40..44 decode to `v` returns `Ok` of the
`v`-tagged view, and the bytes referenced by the view are exactly the
input buffer (round-trip identity). -/
theorem C4_minimal_roundtrip (buffer : List Nat) (v : Nat) (hv : v ≤ 4)
    (hlen : buffer.length = bootHdrSize v)
    (hmagic : buffer.take BOOT_MAGIC_SIZE = BOOT_MAGIC)
    (hver : readLE32 buffer 40 = v) :
    BootImg.parse_boot_image buffer = .ok (bootImgOfVersion v buffer) ∧
    (bootImgOfVersion v buffer).viewBytes = buffer := by
  constructor
  · have h := parse_boot_ok_helper buffer v hv (hlen ▸ le_refl _) hmagic hver
    rw [h, List.take_of_length_le (le_of_eq hlen)]
  · exact viewBytes_bootImgOfVersion v buffer

/-- Witness for C4 at `v = 0` and the minimal all-zero version-0 buffer. -/
theorem C4_minimal_roundtrip_witness :
    (zeroBootBuffer 0 1632).length = bootHdrSize 0 ∧
    BootImg.parse_boot_image (zeroBootBuffer 0 1632) =
      .ok (bootImgOfVersion 0 (zeroBootBuffer 0 1632)) ∧
    (bootImgOfVersion 0 (zeroBootBuffer 0 1632)).viewBytes = zeroBootBuffer 0 1632 :=
  have hlen : (zeroBootBuffer 0 1632).length = bootHdrSize 0 :=
    (zeroBootBuffer_length 0 1632 (by norm_num)).trans (by decide)
  ⟨hlen, C4_minimal_roundtrip (zeroBootBuffer 0 1632) 0 (by norm_num) hlen
    (zeroBootBuffer_take_magic 0 1632) (readLE32_zeroBootBuffer 0 1632)⟩

/-- Claim C5.  For each boot-header version `v ∈ {0,..,4}`, a buffer of
length at least 44 but below that version's record size, carrying the
boot magic and `v` at bytes 40..44, is rejected with `BufferTooSmall`
even though the initial 44-byte length check succeeded. -/
theorem C5_truncated_too_small (buffer : List Nat) (v : Nat) (hv : v ≤ 4)
    (h44 : 44 ≤ buffer.length) (hlt : buffer.length < bootHdrSize v)
    (hmagic : buffer.take BOOT_MAGIC_SIZE = BOOT_MAGIC)
    (hver : readLE32 buffer 40 = v) :
    BootImg.parse_boot_image buffer = .error .BufferTooSmall :=
  parse_boot_toosmall_helper buffer v hv h44 hlt hmagic hver

/-- Witness for C5: a valid-length v0 buffer whose version field says 1
(the source's own `buffer_too_small_valid_version` test). -/
theorem C5_truncated_too_small_witness :
    44 ≤ (zeroBootBuffer 1 1632).length ∧
    (zeroBootBuffer 1 1632).length < bootHdrSize 1 ∧
    BootImg.parse_boot_image (zeroBootBuffer 1 1632) = .error .BufferTooSmall :=
  have hlen : (zeroBootBuffer 1 1632).length = 1632 :=
    zeroBootBuffer_length 1 1632 (by norm_num)
  ⟨by rw [hlen]; norm_num, by rw [hlen]; decide,
    C5_truncated_too_small (zeroBootBuffer 1 1632) 1 (by norm_num)
      (by rw [hlen]; norm_num) (by rw [hlen]; decide)
      (zeroBootBuffer_take_magic 1 1632) (readLE32_zeroBootBuffer 1 1632)⟩

/-- Claim C6.  Any buffer shorter than 44 bytes is rejected with
`BufferTooSmall` regardless of content — never with `BadMagic`. -/
theorem C6_short_buffer_too_small (buffer : List Nat)
    (h : buffer.length < 44) :
    BootImg.parse_boot_image buffer = .error .BufferTooSmall ∧
    BootImg.parse_boot_image buffer ≠ .error .BadMagic := by
  have hres : BootImg.parse_boot_image buffer = .error .BufferTooSmall := by
    unfold BootImg.parse_boot_image
    rw [if_pos h]
  exact ⟨hres, by rw [hres]; simp⟩

/-- Witness for C6: a 3-byte buffer that does not start with the magic
still yields `BufferTooSmall`, not `BadMagic`. -/
theorem C6_short_buffer_too_small_witness :
    ([9, 9, 9] : List Nat).length < 44 ∧
    ([9, 9, 9] : List Nat).take BOOT_MAGIC_SIZE ≠ BOOT_MAGIC ∧
    BootImg.parse_boot_image [9, 9, 9] = .error .BufferTooSmall ∧
    BootImg.parse_boot_image [9, 9, 9] ≠ .error .BadMagic :=
  ⟨by norm_num, by decide, C6_short_buffer_too_small [9, 9, 9] (by norm_num)⟩

/-- Claim C7.  Any buffer of length at least 44 whose first 8 bytes are
not `ANDROID!` is rejected with `BadMagic`, whatever its version field
and total length. -/
theorem C7_bad_magic (buffer : List Nat) (h44 : 44 ≤ buffer.length)
    (hm : buffer.take BOOT_MAGIC_SIZE ≠ BOOT_MAGIC) :
    BootImg.parse_boot_image buffer = .error .BadMagic := by
  unfold BootImg.parse_boot_image
  rw [if_neg (by omega)]
  simp only []
  rw [if_pos hm]

/-- Witness for C7: 44 zero bytes (version field decodes to the supported
version 0, yet the result is `BadMagic`). -/
theorem C7_bad_magic_witness :
    44 ≤ (List.replicate 44 0 : List Nat).length ∧
    (List.replicate 44 0 : List Nat).take BOOT_MAGIC_SIZE ≠ BOOT_MAGIC ∧
    readLE32 (List.replicate 44 0) 40 = 0 ∧
    BootImg.parse_boot_image (List.replicate 44 0) = .error .BadMagic :=
  ⟨by decide, by decide, by decide,
    C7_bad_magic (List.replicate 44 0) (by decide) (by decide)⟩

/-- Claim C8.  With correct magic and sufficient length for the version
read, a version outside the supported set yields `UnknownVersion`: any
version above 4 for `parse_boot_image`, and any version other than 3 or
4 (in particular 0, 1, 2) for `parse_vendor_boot_image`. -/
theorem C8_unknown_version :
    (∀ buffer : List Nat, 44 ≤ buffer.length →
      buffer.take BOOT_MAGIC_SIZE = BOOT_MAGIC →
      4 < readLE32 buffer 40 →
      BootImg.parse_boot_image buffer = .error .UnknownVersion) ∧
    (∀ (buffer : List Nat) (v : Nat), 12 ≤ buffer.length →
      buffer.take VENDOR_BOOT_MAGIC_SIZE = VENDOR_BOOT_MAGIC →
      readLE32 buffer VENDOR_BOOT_MAGIC_SIZE = v →
      v ≠ 3 → v ≠ 4 →
      VendorBootHdr.parse_vendor_boot_image buffer = .error .UnknownVersion) := by
  constructor
  · intro buffer h44 hmagic hver
    exact parse_boot_unknown_helper buffer h44 hmagic hver
  · intro buffer v h12 hmagic hver h3 h4
    exact parse_vendor_unknown_helper buffer (by rw [VENDOR_BOOT_MAGIC_SIZE]; omega)
      hmagic (by omega) (by omega)

/-- Witness for C8: boot version 5 in a 44-byte buffer and vendor
version 2 in a 12-byte buffer. -/
theorem C8_unknown_version_witness :
    readLE32 (zeroBootBuffer 5 44) 40 = 5 ∧
    BootImg.parse_boot_image (zeroBootBuffer 5 44) = .error .UnknownVersion ∧
    readLE32 (zeroVendorBuffer 2 12) VENDOR_BOOT_MAGIC_SIZE = 2 ∧
    VendorBootHdr.parse_vendor_boot_image (zeroVendorBuffer 2 12) =
      .error .UnknownVersion :=
  ⟨readLE32_zeroBootBuffer 5 44,
    C8_unknown_version.1 (zeroBootBuffer 5 44)
      (by rw [zeroBootBuffer_length 5 44 (by norm_num)])
      (zeroBootBuffer_take_magic 5 44)
      (by rw [readLE32_zeroBootBuffer 5 44]; norm_num),
    readLE32_zeroVendorBuffer 2 12,
    C8_unknown_version.2 (zeroVendorBuffer 2 12) 2
      (by rw [zeroVendorBuffer_length 2 12 (by norm_num)])
      (zeroVendorBuffer_take_magic 2 12)
      (readLE32_zeroVendorBuffer 2 12) (by norm_num) (by norm_num)⟩


/-- Claim C10.  Both parse functions are total — on every buffer they
return either an error or a view — and memory safe: every index in the
mirrored access trace (`bootAccessedIndices`/`vendorAccessedIndices`,
covering the magic slice, the version slice, and the bytes a successful
view references) is within the buffer, and a returned view references a
prefix of the input buffer rather than reading past its end. -/
theorem C10_parse_total_in_bounds (buffer : List Nat) :
    ((∃ e, BootImg.parse_boot_image buffer = .error e) ∨
      (∃ h, BootImg.parse_boot_image buffer = .ok h)) ∧
    ((∃ e, VendorBootHdr.parse_vendor_boot_image buffer = .error e) ∨
      (∃ hv, VendorBootHdr.parse_vendor_boot_image buffer = .ok hv)) ∧
    (∀ i, i ∈ bootAccessedIndices buffer → i < buffer.length) ∧
    (∀ i, i ∈ vendorAccessedIndices buffer → i < buffer.length) ∧
    (∀ h, BootImg.parse_boot_image buffer = .ok h →
      ∃ rest, h.viewBytes ++ rest = buffer) ∧
    (∀ hv, VendorBootHdr.parse_vendor_boot_image buffer = .ok hv →
      ∃ rest, hv.viewBytes ++ rest = buffer) := by
  refine ⟨?_, ?_, ?_, ?_, ?_, ?_⟩
  · cases hE : BootImg.parse_boot_image buffer with
    | error e => exact .inl ⟨e, rfl⟩
    | ok h => exact .inr ⟨h, rfl⟩
  · cases hE : VendorBootHdr.parse_vendor_boot_image buffer with
    | error e => exact .inl ⟨e, rfl⟩
    | ok h => exact .inr ⟨h, rfl⟩
  · intro i hi
    simp only [bootAccessedIndices] at hi
    split_ifs at hi <;>
      simp only [List.mem_append, List.mem_range, List.mem_cons,
        List.not_mem_nil, List.append_nil, BOOT_MAGIC_SIZE,
        or_false, false_or] at * <;>
      omega
  · intro i hi
    simp only [vendorAccessedIndices] at hi
    split_ifs at hi <;>
      simp only [List.mem_append, List.mem_range, List.mem_cons,
        List.not_mem_nil, List.append_nil, VENDOR_BOOT_MAGIC_SIZE,
        or_false, false_or] at * <;>
      omega
  · intro h heq
    simp only [BootImg.parse_boot_image] at heq
    split_ifs at heq
    all_goals first
      | exact Except.noConfusion heq
      | (injection heq with h2; subst h2;
         exact ⟨_, List.take_append_drop _ buffer⟩)
  · intro hv heq
    simp only [VendorBootHdr.parse_vendor_boot_image] at heq
    split_ifs at heq
    all_goals first
      | exact Except.noConfusion heq
      | (injection heq with h2; subst h2;
         exact ⟨_, List.take_append_drop _ buffer⟩)

/-- Witness for C10: index 11 read by the vendor parser of a 12-byte
buffer is in bounds, and the successful v0 parse of a minimal boot
buffer references a prefix of it. -/
theorem C10_parse_total_in_bounds_witness :
    (11 ∈ vendorAccessedIndices (zeroVendorBuffer 2 12) → 11 < (zeroVendorBuffer 2 12).length) ∧
    (∃ rest, (bootImgOfVersion 0 ((zeroBootBuffer 0 1632).take (bootHdrSize 0))).viewBytes ++ rest =
      zeroBootBuffer 0 1632) :=
  ⟨(C10_parse_total_in_bounds (zeroVendorBuffer 2 12)).2.2.2.1 11,
    (C10_parse_total_in_bounds (zeroBootBuffer 0 1632)).2.2.2.2.1
      (bootImgOfVersion 0 ((zeroBootBuffer 0 1632).take (bootHdrSize 0)))
      (parse_boot_ok_helper (zeroBootBuffer 0 1632) 0 (by norm_num)
        (by rw [zeroBootBuffer_length 0 1632 (by norm_num)]; decide)
        (zeroBootBuffer_take_magic 0 1632) (readLE32_zeroBootBuffer 0 1632))⟩

